import Mathlib

/-!
Verification of `render-nodes-minimal/main.c` (gpu-playground).

The program is a linear sequence of calls into external graphics libraries
(DRM render node open, GBM, EGL, GLES 3.1).  We embed it shallowly as a
trace-producing state machine: every external API call becomes an `Event`
appended to a trace, the driver's replies (compile status, resource indices,
generated buffer/texture names, mapped contents) are supplied by an
environment `Env`, and the program's own static mutable state
(`ssbo_table`, the `static int cnt` of `setup_ubo`) together with the
driver-side name counters lives in `St`.
-/

namespace RenderNodes

/-- Command-line options structure (`opts` in main.c, lines 44-56):
shader source, device path, dispatch group counts and buffer size in dwords. -/
structure Opts where
  shader : String
  device : String
  num_groups_x : Nat
  num_groups_y : Nat
  num_groups_z : Nat
  bo_size : Nat
deriving Repr, DecidableEq

/-- Default option values from main.c lines 51-56. -/
def defaultOpts : Opts :=
  { shader := ""
    device := "/dev/dri/renderD128"
    num_groups_x := 1, num_groups_y := 1, num_groups_z := 1
    bo_size := 256 }

/-- GL buffer binding targets used by the program. -/
inductive BufTarget
  | uniform   -- GL_UNIFORM_BUFFER
  | ssbo      -- GL_SHADER_STORAGE_BUFFER
deriving Repr, DecidableEq

def GL_COMPILE_STATUS : Nat := 0x8B81
def GL_INFO_LOG_LENGTH : Nat := 0x8B84
def GL_TEXTURE0 : Nat := 0x84C0
def GL_NEAREST : Nat := 0x2600
def GL_TEXTURE_MAG_FILTER : Nat := 0x2800
def GL_TEXTURE_MIN_FILTER : Nat := 0x2801
def GL_TEXTURE_WRAP_S : Nat := 0x2802
def GL_TEXTURE_WRAP_T : Nat := 0x2803
def GL_CLAMP_TO_EDGE : Nat := 0x812F
def GL_TEXTURE_MIN_LOD : Nat := 0x813A
def GL_TEXTURE_MAX_LOD : Nat := 0x813B
def GL_MAX_COMPUTE_WORK_GROUP_COUNT : Nat := 0x91BE
def GL_MAX_COMPUTE_WORK_GROUP_SIZE : Nat := 0x91BF
def GL_MAX_COMPUTE_WORK_GROUP_INVOCATIONS : Nat := 0x90EB
def GL_MAX_COMPUTE_SHARED_MEMORY_SIZE : Nat := 0x8262

set_option maxHeartbeats 1600000 in
/-- One external API call (or print) performed by the program.  Payloads
record exactly the values the program passes to (or receives from) the
external library. -/
inductive Event
  | openDevice (path : String) (fd : Nat)
  | gbmCreateDevice (fd dev : Nat)
  | getProc (name : String)
  | eglGetPlatformDisplay (dev dpy : Nat)
  | eglInitialize (dpy : Nat)
  | eglQueryString (dpy : Nat)
  | eglChooseConfig (dpy : Nat)
  | eglBindAPI
  | eglCreateContext (dpy ctx : Nat)
  | eglMakeCurrent (dpy ctx : Nat)
  | glGetIntegeri (pname i : Nat)
  | glGetInteger (pname : Nat)
  | printLine (s : String)
  | printShader (src : String)
  | printUBO (name : String) (idx : Nat)
  | printSSBO (name : String) (idx : Nat)
  | printDumpSSBO (name : String) (idx : Nat)
  | printSetupTex (name : String)
  | printInfoLog (log : String)
  | glCreateShader (shader : Nat)
  | glShaderSource (shader : Nat) (src : String)
  | glCompileShader (shader : Nat)
  | glGetShaderiv (shader pname : Nat)
  | glGetShaderInfoLog (shader : Nat)
  | glCreateProgram (program : Nat)
  | glAttachShader (program shader : Nat)
  | glLinkProgram (program : Nat)
  | glDeleteShader (shader : Nat)
  | glUseProgram (program : Nat)
  | glGetProgramResourceIndex (program : Nat) (name : String)
  | glGetUniformBlockIndex (program : Nat) (name : String)
  | glGetUniformLocation (program : Nat) (name : String)
  | glGenBuffers (buf : Nat)
  | glBindBuffer (target : BufTarget) (buf : Nat)
  | glBufferData (target : BufTarget) (sizeBytes : Nat) (data : List Nat)
  | glBindBufferBase (target : BufTarget) (binding buf : Nat)
  | glUniformBlockBinding (program idx binding : Nat)
  | glGenTextures (tex : Nat)
  | glActiveTexture (unitEnum : Nat)
  | glBindTexture (tex : Nat)
  | glTexParameteri (pname val : Nat)
  | glTexStorage2D
  | glTexSubImage2D (data : List Nat)
  | glBindImageTexture (unit tex : Nat)
  | glTexImage2D (data : List Nat)
  | glUniform1i (location unit : Nat)
  | glDispatchCompute (x y z : Nat)
  | glMapBufferRange (target : BufTarget) (sizeBytes : Nat)
  | hexdump (data : List Nat)
  | glUnmapBuffer (target : BufTarget)
  | glDeleteProgram (program : Nat)
  | eglDestroyContext (dpy ctx : Nat)
  | eglTerminate (dpy : Nat)
  | gbmDeviceDestroy (dev : Nat)
  | closeFd (fd : Nat)
deriving Repr

/-- Driver/environment replies: every value the external libraries hand back
to the program.  `bufHandle n` (resp. `texHandle n`) is the name returned by
the n-th `glGenBuffers` (resp. `glGenTextures`) call of the process;
`uniformLoc`, `uboIdx`, `ssboIdx` give the reply of the respective query,
`none` standing for -1 / GL_INVALID_INDEX. -/
structure Env where
  fd : Nat
  gbmDev : Nat
  dpy : Nat
  ctx : Nat
  shaderHandle : Nat
  programHandle : Nat
  compileOk : Bool
  infoLogLen : Nat
  infoLog : String
  uniformLoc : String → Option Nat
  uboIdx : String → Option Nat
  ssboIdx : String → Option Nat
  bufHandle : Nat → Nat
  texHandle : Nat → Nat
  mapData : List Nat

/-- Program and driver state threaded through the linear execution:
the emitted call trace, the static `GLuint ssbo_table[256]` (main.c line 173,
modelled as a total map, zero-initialised like the C static array), the
`static int cnt` of `setup_ubo` (line 153), and the driver's counters of
issued buffer/texture names. -/
structure St where
  trace : List Event
  ssbo_table : Nat → Nat
  cnt : Nat
  nbuf : Nat
  ntex : Nat

/-- Initial state at process start: empty trace, zeroed statics. -/
def St.init : St :=
  { trace := [], ssbo_table := fun _ => 0, cnt := 0, nbuf := 0, ntex := 0 }

/-- Append externally visible calls to the trace. -/
def emit (s : St) (es : List Event) : St :=
  { s with trace := s.trace ++ es }

/-- Events emitted by a state transformer when started in state `s`. -/
def emitted (f : St → St) (s : St) : List Event :=
  (f s).trace.drop s.trace.length

/-- C `strstr(hay, needle) != NULL` on the fixed names used by the program. -/
def strstrContains (hay needle : String) : Bool :=
  1 < (hay.splitOn needle).length

/-- mem (main.c lines 80-91): `calloc` a zero-filled buffer of `dwords`
dwords; when `init` is set, the loop stores `i` at index `i` for
`0 <= i < dwords`. -/
def mem (dwords : Nat) (init : Bool) : List Nat :=
  let buf : List Nat := List.replicate dwords 0
  if init then (List.range dwords).foldl (fun b i => b.set i i) buf else buf

/-- readfile (main.c lines 68-78): `read` fills the `static char text[64*1024]`
buffer; when the returned count `ret` is negative the process exits, otherwise
the program stores a NUL terminator at `text[ret]`.  The model returns the
index of that store. -/
def readfile_nul_index (ret : Int) : Option Nat :=
  if ret < 0 then none else some ret.toNat

/-- Size in bytes of readfile's static `text` buffer (main.c line 70). -/
def READFILE_BUFSIZE : Nat := 64 * 1024

/-- setup_tex2d (main.c lines 111-148): query the uniform location of `name`;
if it exists, generate and configure a texture on texture unit `unit`
(image variant: immutable R32UI storage uploaded from `mem`, initialised
when the name contains "in", then bound as an image; sampler variant:
`glTexImage2D` upload, LOD clamping, and `glUniform1i` pointing the sampler
at the unit) and return `unit + 1`; otherwise return `unit` unchanged. -/
def setup_tex2d (env : Env) (program : Nat) (name : String) (unit : Nat)
    (image : Bool) (s : St) : Nat × St :=
  match env.uniformLoc name with
  | none => (unit, emit s [.glGetUniformLocation program name])
  | some handle =>
    let tex := env.texHandle s.ntex
    let s := { s with ntex := s.ntex + 1 }
    let common : List Event :=
      [.glGetUniformLocation program name,
       .printSetupTex name,
       .glGenTextures tex,
       .glActiveTexture (GL_TEXTURE0 + unit),
       .glBindTexture tex,
       .glTexParameteri GL_TEXTURE_MAG_FILTER GL_NEAREST,
       .glTexParameteri GL_TEXTURE_MIN_FILTER GL_NEAREST,
       .glTexParameteri GL_TEXTURE_WRAP_S GL_CLAMP_TO_EDGE,
       .glTexParameteri GL_TEXTURE_WRAP_T GL_CLAMP_TO_EDGE]
    let body : List Event :=
      if image then
        [.glTexStorage2D,
         .glTexSubImage2D (mem (64 * 64 * 4) (strstrContains name "in")),
         .glBindImageTexture unit tex]
      else
        [.glTexImage2D (mem (64 * 64 * 4) true),
         .glTexParameteri GL_TEXTURE_MIN_LOD 1,
         .glTexParameteri GL_TEXTURE_MAX_LOD 4,
         .glUniform1i handle unit]
    (unit + 1, emit s (common ++ body))

/-- setup_ubo (main.c lines 150-171): `int i = cnt++` runs before the index
query; when the uniform block `name` exists, generate a buffer, upload
`mem(sz, true)`, and bind it to uniform-buffer binding point `i`. -/
def setup_ubo (o : Opts) (env : Env) (program : Nat) (name : String)
    (s : St) : St :=
  let i := s.cnt
  let s := { s with cnt := s.cnt + 1 }
  match env.uboIdx name with
  | none => emit s [.glGetUniformBlockIndex program name]
  | some idx =>
    let ubo := env.bufHandle s.nbuf
    let s := { s with nbuf := s.nbuf + 1 }
    emit s
      [.glGetUniformBlockIndex program name,
       .printUBO name idx,
       .glGenBuffers ubo,
       .glBindBuffer .uniform ubo,
       .glBufferData .uniform (4 * o.bo_size) (mem o.bo_size true),
       .glBindBuffer .uniform 0,
       .glBindBufferBase .uniform i ubo,
       .glUniformBlockBinding program idx i]

/-- setup_ssbo (main.c lines 175-194): when the shader storage block `name`
exists at resource index `idx`, generate a buffer, upload
`mem(sz, input)`, bind it to SSBO binding point `idx`, and record the
handle in `ssbo_table[idx]`. -/
def setup_ssbo (o : Opts) (env : Env) (program : Nat) (name : String)
    (input : Bool) (s : St) : St :=
  match env.ssboIdx name with
  | none => emit s [.glGetProgramResourceIndex program name]
  | some idx =>
    let ssbo := env.bufHandle s.nbuf
    let s := { s with nbuf := s.nbuf + 1,
                      ssbo_table := Function.update s.ssbo_table idx ssbo }
    emit s
      [.glGetProgramResourceIndex program name,
       .printSSBO name idx,
       .glGenBuffers ssbo,
       .glBindBuffer .ssbo ssbo,
       .glBufferData .ssbo (4 * o.bo_size) (mem o.bo_size input),
       .glBindBufferBase .ssbo idx ssbo]

/-- dump_ssbo (main.c lines 196-213): when the shader storage block `name`
exists at resource index `idx`, bind the handle saved in `ssbo_table[idx]`
to SSBO binding point 0, map `bo_size * 4` bytes of it for reading, hexdump
`bo_size` dwords of the mapped contents and unmap. -/
def dump_ssbo (o : Opts) (env : Env) (program : Nat) (name : String)
    (s : St) : St :=
  match env.ssboIdx name with
  | none => emit s [.glGetProgramResourceIndex program name]
  | some idx =>
    emit s
      [.glGetProgramResourceIndex program name,
       .printDumpSSBO name idx,
       .glBindBufferBase .ssbo 0 (s.ssbo_table idx),
       .glMapBufferRange .ssbo (o.bo_size * 4),
       .hexdump (env.mapData.take o.bo_size),
       .glUnmapBuffer .ssbo]

/-- run (main.c lines 215-354), translated call by call: open the render
node, create the GBM device, resolve extension entry points, set up a
surfaceless EGL context and make it current, print compute limits, create
and compile the compute shader; on compile failure print the info log (when
its length exceeds 1) and return early; otherwise link and use the program,
set up the two SSBOs, the UBO and the three textures/images, dispatch the
compute grid, dump the "Output" SSBO and tear everything down. -/
def run (o : Opts) (env : Env) : St :=
  let s := St.init
  let s := emit s
    [.openDevice o.device env.fd,
     .gbmCreateDevice env.fd env.gbmDev,
     .getProc "glDispatchCompute",
     .getProc "glGetProgramResourceIndex",
     .eglGetPlatformDisplay env.gbmDev env.dpy,
     .eglInitialize env.dpy,
     .eglQueryString env.dpy,
     .eglChooseConfig env.dpy,
     .eglBindAPI,
     .eglCreateContext env.dpy env.ctx,
     .eglMakeCurrent env.dpy env.ctx]
  let s := emit s
    [.glGetIntegeri GL_MAX_COMPUTE_WORK_GROUP_COUNT 0,
     .glGetIntegeri GL_MAX_COMPUTE_WORK_GROUP_COUNT 1,
     .glGetIntegeri GL_MAX_COMPUTE_WORK_GROUP_COUNT 2,
     .glGetIntegeri GL_MAX_COMPUTE_WORK_GROUP_SIZE 0,
     .glGetIntegeri GL_MAX_COMPUTE_WORK_GROUP_SIZE 1,
     .glGetIntegeri GL_MAX_COMPUTE_WORK_GROUP_SIZE 2,
     .glGetInteger GL_MAX_COMPUTE_WORK_GROUP_INVOCATIONS,
     .glGetInteger GL_MAX_COMPUTE_SHARED_MEMORY_SIZE,
     .printShader o.shader,
     .glCreateShader env.shaderHandle,
     .glShaderSource env.shaderHandle o.shader,
     .glCompileShader env.shaderHandle,
     .glGetShaderiv env.shaderHandle GL_COMPILE_STATUS]
  if env.compileOk then
    let p := env.programHandle
    let s := emit s
      [.glCreateProgram p,
       .glAttachShader p env.shaderHandle,
       .glLinkProgram p,
       .glDeleteShader env.shaderHandle,
       .glUseProgram p]
    let s := setup_ssbo o env p "Input" true s
    let s := setup_ssbo o env p "Output" false s
    let s := setup_ubo o env p "Input" s
    let t1 := setup_tex2d env p "tex2d0" 0 false s
    let t2 := setup_tex2d env p "img2d0in" t1.1 true t1.2
    let t3 := setup_tex2d env p "img2d0out" t2.1 true t2.2
    let s := t3.2
    let s := emit s
      [.glDispatchCompute o.num_groups_x o.num_groups_y o.num_groups_z,
       .printLine "Compute shader dispatched and finished successfully"]
    let s := dump_ssbo o env p "Output" s
    emit s
      [.glDeleteProgram p,
       .eglDestroyContext env.dpy env.ctx,
       .eglTerminate env.dpy,
       .gbmDeviceDestroy env.gbmDev,
       .closeFd env.fd]
  else
    let s := emit s
      [.printLine "shader compilation failed!:",
       .glGetShaderiv env.shaderHandle GL_INFO_LOG_LENGTH]
    if 1 < env.infoLogLen then
      emit s [.glGetShaderInfoLog env.shaderHandle, .printInfoLog env.infoLog]
    else s

/-- main (main.c lines 377-412): with valid arguments, the shader file is
read and `run` is called, and main then returns 0 unconditionally; with
invalid arguments, usage is printed and main returns -1 without calling
`run`. -/
def main_ret (o : Opts) (env : Env) (argsValid : Bool) : Int × List Event :=
  if argsValid then (0, (run o env).trace) else (-1, [])

/-- Modelled from the spec: the repository's second, near-identical copy of
the example, which is not present under src/ — per the spec it is "reduced
to the bare dispatch call", i.e. the same device/context/compile/link and
dispatch sequence without the texture/buffer binding helpers or the result
dump. -/
def run_reduced (o : Opts) (env : Env) : St :=
  let s := St.init
  let s := emit s
    [.openDevice o.device env.fd,
     .gbmCreateDevice env.fd env.gbmDev,
     .getProc "glDispatchCompute",
     .eglGetPlatformDisplay env.gbmDev env.dpy,
     .eglInitialize env.dpy,
     .eglQueryString env.dpy,
     .eglChooseConfig env.dpy,
     .eglBindAPI,
     .eglCreateContext env.dpy env.ctx,
     .eglMakeCurrent env.dpy env.ctx,
     .printShader o.shader,
     .glCreateShader env.shaderHandle,
     .glShaderSource env.shaderHandle o.shader,
     .glCompileShader env.shaderHandle,
     .glGetShaderiv env.shaderHandle GL_COMPILE_STATUS]
  if env.compileOk then
    let p := env.programHandle
    let s := emit s
      [.glCreateProgram p,
       .glAttachShader p env.shaderHandle,
       .glLinkProgram p,
       .glDeleteShader env.shaderHandle,
       .glUseProgram p]
    let s := emit s
      [.glDispatchCompute o.num_groups_x o.num_groups_y o.num_groups_z,
       .printLine "Compute shader dispatched and finished successfully"]
    emit s
      [.glDeleteProgram p,
       .eglDestroyContext env.dpy env.ctx,
       .eglTerminate env.dpy,
       .gbmDeviceDestroy env.gbmDev,
       .closeFd env.fd]
  else
    let s := emit s
      [.printLine "shader compilation failed!:",
       .glGetShaderiv env.shaderHandle GL_INFO_LOG_LENGTH]
    if 1 < env.infoLogLen then
      emit s [.glGetShaderInfoLog env.shaderHandle, .printInfoLog env.infoLog]
    else s

/-- Step number of an event for the six-step claim of the spec:
0 = open the device node, 1 = create the windowless context, 2 = compile
and link the compute program, 3 = bind input/output buffers and textures,
4 = dispatch, 5 = retrieve results.  Events that are not one of the six
steps (prints, limit queries, entry-point lookup, teardown) map to `none`,
as do `glBindBufferBase` and `glGetProgramResourceIndex`, which occur with
identical payload shapes both while binding (step 3) and while retrieving
(step 5). -/
def stepOf : Event → Option Nat
  | .openDevice _ _ => some 0
  | .gbmCreateDevice _ _ => some 1
  | .eglGetPlatformDisplay _ _ => some 1
  | .eglInitialize _ => some 1
  | .eglQueryString _ => some 1
  | .eglChooseConfig _ => some 1
  | .eglBindAPI => some 1
  | .eglCreateContext _ _ => some 1
  | .eglMakeCurrent _ _ => some 1
  | .glCreateShader _ => some 2
  | .glShaderSource _ _ => some 2
  | .glCompileShader _ => some 2
  | .glGetShaderiv _ _ => some 2
  | .glGetShaderInfoLog _ => some 2
  | .glCreateProgram _ => some 2
  | .glAttachShader _ _ => some 2
  | .glLinkProgram _ => some 2
  | .glDeleteShader _ => some 2
  | .glUseProgram _ => some 2
  | .glGetUniformBlockIndex _ _ => some 3
  | .glGetUniformLocation _ _ => some 3
  | .glGenBuffers _ => some 3
  | .glBindBuffer _ _ => some 3
  | .glBufferData _ _ _ => some 3
  | .glUniformBlockBinding _ _ _ => some 3
  | .glGenTextures _ => some 3
  | .glActiveTexture _ => some 3
  | .glBindTexture _ => some 3
  | .glTexParameteri _ _ => some 3
  | .glTexStorage2D => some 3
  | .glTexSubImage2D _ => some 3
  | .glBindImageTexture _ _ => some 3
  | .glTexImage2D _ => some 3
  | .glUniform1i _ _ => some 3
  | .glDispatchCompute _ _ _ => some 4
  | .glMapBufferRange _ _ => some 5
  | .hexdump _ => some 5
  | .glUnmapBuffer _ => some 5
  | _ => none

/-- Sequence of spec steps performed by a trace, in order. -/
def steps (t : List Event) : List Nat :=
  t.filterMap stepOf

/-- Is the event a compute dispatch? -/
def isDispatch : Event → Bool
  | .glDispatchCompute _ _ _ => true
  | _ => false

/-- The dispatch calls of a trace, with their arguments. -/
def dispatches (t : List Event) : List Event :=
  t.filter isDispatch

/-- Is the event a link call? -/
def isLink : Event → Bool
  | .glLinkProgram _ => true
  | _ => false

/-- Does the event create, fill or bind a buffer or texture? -/
def isBindEvent : Event → Bool
  | .glGenBuffers _ => true
  | .glBindBuffer _ _ => true
  | .glBufferData _ _ _ => true
  | .glBindBufferBase _ _ _ => true
  | .glUniformBlockBinding _ _ _ => true
  | .glGenTextures _ => true
  | .glActiveTexture _ => true
  | .glBindTexture _ => true
  | .glTexParameteri _ _ => true
  | .glTexStorage2D => true
  | .glTexSubImage2D _ => true
  | .glBindImageTexture _ _ => true
  | .glTexImage2D _ => true
  | .glUniform1i _ _ => true
  | _ => false

/-- Device file descriptors the program hands to external calls. -/
def fdOf : Event → Option Nat
  | .openDevice _ fd => some fd
  | .gbmCreateDevice fd _ => some fd
  | .closeFd fd => some fd
  | _ => none

/-- GBM device handles the program hands to external calls. -/
def gbmOf : Event → Option Nat
  | .gbmCreateDevice _ dev => some dev
  | .eglGetPlatformDisplay dev _ => some dev
  | .gbmDeviceDestroy dev => some dev
  | _ => none

/-- EGL display handles the program hands to external calls. -/
def dpyOf : Event → Option Nat
  | .eglGetPlatformDisplay _ dpy => some dpy
  | .eglInitialize dpy => some dpy
  | .eglQueryString dpy => some dpy
  | .eglChooseConfig dpy => some dpy
  | .eglCreateContext dpy _ => some dpy
  | .eglMakeCurrent dpy _ => some dpy
  | .eglDestroyContext dpy _ => some dpy
  | .eglTerminate dpy => some dpy
  | _ => none

/-- EGL context handles the program hands to external calls. -/
def ctxOf : Event → Option Nat
  | .eglCreateContext _ ctx => some ctx
  | .eglMakeCurrent _ ctx => some ctx
  | .eglDestroyContext _ ctx => some ctx
  | _ => none

/-- Shader handles the program hands to external calls. -/
def shaderOf : Event → Option Nat
  | .glCreateShader sh => some sh
  | .glShaderSource sh _ => some sh
  | .glCompileShader sh => some sh
  | .glGetShaderiv sh _ => some sh
  | .glGetShaderInfoLog sh => some sh
  | .glAttachShader _ sh => some sh
  | .glDeleteShader sh => some sh
  | _ => none

/-- Program handles the program hands to external calls. -/
def programOf : Event → Option Nat
  | .glCreateProgram p => some p
  | .glAttachShader p _ => some p
  | .glLinkProgram p => some p
  | .glUseProgram p => some p
  | .glGetProgramResourceIndex p _ => some p
  | .glGetUniformBlockIndex p _ => some p
  | .glGetUniformLocation p _ => some p
  | .glUniformBlockBinding p _ _ => some p
  | .glDeleteProgram p => some p
  | _ => none

/-- SSBO-target `glBindBufferBase` calls of a trace: (binding point, handle). -/
def ssboBinds (t : List Event) : List (Nat × Nat) :=
  t.filterMap fun e =>
    match e with
    | .glBindBufferBase .ssbo b h => some (b, h)
    | _ => none

/-- Payloads uploaded to the uniform-buffer target by `glBufferData`. -/
def uboUploads (t : List Event) : List (List Nat) :=
  t.filterMap fun e =>
    match e with
    | .glBufferData .uniform _ d => some d
    | _ => none

/-- Payloads uploaded to the SSBO target by `glBufferData`, in order. -/
def ssboUploads (t : List Event) : List (List Nat) :=
  t.filterMap fun e =>
    match e with
    | .glBufferData .ssbo _ d => some d
    | _ => none

/-- Byte sizes of `glMapBufferRange` calls on the given target. -/
def mapsOn (tgt : BufTarget) (t : List Event) : List Nat :=
  t.filterMap fun e =>
    match e with
    | .glMapBufferRange tgt2 sz => if tgt2 = tgt then some sz else none
    | _ => none

/-- Contents hexdumped (read by the host) in a trace. -/
def hexdumps (t : List Event) : List (List Nat) :=
  t.filterMap fun e =>
    match e with
    | .hexdump d => some d
    | _ => none

/-- Uniform-buffer binding points used by `glBindBufferBase` calls on the
uniform-buffer target. -/
def uniformBindPoints (t : List Event) : List Nat :=
  t.filterMap fun e =>
    match e with
    | .glBindBufferBase .uniform b _ => some b
    | _ => none

/-- Texture units selected by `glActiveTexture`, as unit numbers. -/
def activeUnits (t : List Event) : List Nat :=
  t.filterMap fun e =>
    match e with
    | .glActiveTexture u => some (u - GL_TEXTURE0)
    | _ => none

/-- Trace elements up to (excluding) the first dispatch call. -/
def beforeDispatch (t : List Event) : List Event :=
  t.takeWhile fun e => !(isDispatch e)

/-- Trace elements from the first dispatch call on. -/
def fromDispatch (t : List Event) : List Event :=
  t.dropWhile fun e => !(isDispatch e)

/-- Concrete options used by the witnesses: a tiny buffer size. -/
def optsA : Opts :=
  { shader := "void main() \x7b \x7d"
    device := "/dev/dri/renderD128"
    num_groups_x := 2, num_groups_y := 1, num_groups_z := 1
    bo_size := 4 }

/-- Concrete environment: compilation succeeds, every queried resource
exists ("Input" SSBO at index 0, "Output" SSBO at index 1, the UBO at
index 0, all three texture uniforms present). -/
def envA : Env :=
  { fd := 3
    gbmDev := 11
    dpy := 12
    ctx := 13
    shaderHandle := 4
    programHandle := 5
    compileOk := true
    infoLogLen := 0
    infoLog := ""
    uniformLoc := fun _ => some 7
    uboIdx := fun _ => some 0
    ssboIdx := fun n => if n = "Input" then some 0 else some 1
    bufHandle := fun n => 100 + n
    texHandle := fun n => 200 + n
    mapData := [9, 9, 9, 9] }

/-- Concrete environment where shader compilation fails with a two-byte
info log. -/
def envFail : Env :=
  { envA with compileOk := false, infoLogLen := 2, infoLog := "x" }

/-! ### Closed forms for the events each helper emits

These repeat the emission part of the helpers as plain list expressions
(parameterised by the relevant piece of state), so that traces of composed
helpers can be reasoned about block by block. -/

/-- Events emitted by `setup_ssbo` when the driver has issued `nbuf` buffer
names so far. -/
def ssboEvs (o : Opts) (env : Env) (program : Nat) (name : String)
    (input : Bool) (nbuf : Nat) : List Event :=
  match env.ssboIdx name with
  | none => [.glGetProgramResourceIndex program name]
  | some idx =>
      [.glGetProgramResourceIndex program name,
       .printSSBO name idx,
       .glGenBuffers (env.bufHandle nbuf),
       .glBindBuffer .ssbo (env.bufHandle nbuf),
       .glBufferData .ssbo (4 * o.bo_size) (mem o.bo_size input),
       .glBindBufferBase .ssbo idx (env.bufHandle nbuf)]

/-- Events emitted by `setup_ubo` when its static counter holds `cnt` and
the driver has issued `nbuf` buffer names so far. -/
def uboEvs (o : Opts) (env : Env) (program : Nat) (name : String)
    (cnt nbuf : Nat) : List Event :=
  match env.uboIdx name with
  | none => [.glGetUniformBlockIndex program name]
  | some idx =>
      [.glGetUniformBlockIndex program name,
       .printUBO name idx,
       .glGenBuffers (env.bufHandle nbuf),
       .glBindBuffer .uniform (env.bufHandle nbuf),
       .glBufferData .uniform (4 * o.bo_size) (mem o.bo_size true),
       .glBindBuffer .uniform 0,
       .glBindBufferBase .uniform cnt (env.bufHandle nbuf),
       .glUniformBlockBinding program idx cnt]

/-- Events emitted by `setup_tex2d` when the driver has issued `ntex`
texture names so far. -/
def tex2dEvs (env : Env) (program : Nat) (name : String) (unit : Nat)
    (image : Bool) (ntex : Nat) : List Event :=
  match env.uniformLoc name with
  | none => [.glGetUniformLocation program name]
  | some handle =>
      [.glGetUniformLocation program name,
       .printSetupTex name,
       .glGenTextures (env.texHandle ntex),
       .glActiveTexture (GL_TEXTURE0 + unit),
       .glBindTexture (env.texHandle ntex),
       .glTexParameteri GL_TEXTURE_MAG_FILTER GL_NEAREST,
       .glTexParameteri GL_TEXTURE_MIN_FILTER GL_NEAREST,
       .glTexParameteri GL_TEXTURE_WRAP_S GL_CLAMP_TO_EDGE,
       .glTexParameteri GL_TEXTURE_WRAP_T GL_CLAMP_TO_EDGE] ++
      (if image then
        [.glTexStorage2D,
         .glTexSubImage2D (mem (64 * 64 * 4) (strstrContains name "in")),
         .glBindImageTexture unit (env.texHandle ntex)]
      else
        [.glTexImage2D (mem (64 * 64 * 4) true),
         .glTexParameteri GL_TEXTURE_MIN_LOD 1,
         .glTexParameteri GL_TEXTURE_MAX_LOD 4,
         .glUniform1i handle unit])

/-- Texture unit returned by `setup_tex2d`: incremented exactly when the
uniform exists. -/
def tex2dRet (env : Env) (name : String) (unit : Nat) : Nat :=
  match env.uniformLoc name with
  | none => unit
  | some _ => unit + 1

/-- Events emitted by `dump_ssbo` when the saved handle table is `table`. -/
def dumpEvs (o : Opts) (env : Env) (program : Nat) (name : String)
    (table : Nat → Nat) : List Event :=
  match env.ssboIdx name with
  | none => [.glGetProgramResourceIndex program name]
  | some idx =>
      [.glGetProgramResourceIndex program name,
       .printDumpSSBO name idx,
       .glBindBufferBase .ssbo 0 (table idx),
       .glMapBufferRange .ssbo (o.bo_size * 4),
       .hexdump (env.mapData.take o.bo_size),
       .glUnmapBuffer .ssbo]

/-- One added buffer/texture name when the queried resource exists. -/
def optInc (v : Option Nat) : Nat :=
  if v.isSome then 1 else 0

/-! ### Helper lemmas about `mem` -/

lemma foldl_set_range (n : Nat) : ∀ l : List Nat, n ≤ l.length →
    (List.range n).foldl (fun b i => b.set i i) l = List.range n ++ l.drop n := by
  induction n with
  | zero => intro l _; simp
  | succ n ih =>
    intro l hl
    have hn : n < l.length := Nat.lt_of_lt_of_le (Nat.lt_succ_self n) hl
    rw [List.range_succ, List.foldl_append, ih l (Nat.le_of_lt hn)]
    simp only [List.foldl_cons, List.foldl_nil]
    rw [List.set_append_right _ _ (by simp), List.length_range, Nat.sub_self,
      List.drop_eq_getElem_cons hn, List.set_cons_zero]
    simp [List.range_succ]

/-- The initialised buffer is exactly the sequence 0, 1, ..., n-1. -/
lemma mem_true_eq_range (n : Nat) : mem n true = List.range n := by
  unfold mem
  simp only [if_pos]
  rw [foldl_set_range n _ (by simp), List.drop_replicate, Nat.sub_self,
    List.replicate_zero, List.append_nil]

/-- The uninitialised buffer is all zeros. -/
lemma mem_false_eq_replicate (n : Nat) : mem n false = List.replicate n 0 := rfl

/-! ### Shape lemmas: each helper appends its emission block to the trace -/

@[simp] lemma emit_trace (s : St) (es : List Event) :
    (emit s es).trace = s.trace ++ es := rfl

@[simp] lemma emit_nbuf (s : St) (es : List Event) : (emit s es).nbuf = s.nbuf := rfl

@[simp] lemma emit_ntex (s : St) (es : List Event) : (emit s es).ntex = s.ntex := rfl

@[simp] lemma emit_cnt (s : St) (es : List Event) : (emit s es).cnt = s.cnt := rfl

@[simp] lemma emit_table (s : St) (es : List Event) :
    (emit s es).ssbo_table = s.ssbo_table := rfl

@[simp] lemma setup_ssbo_trace (o : Opts) (env : Env) (p : Nat) (n : String)
    (i : Bool) (s : St) :
    (setup_ssbo o env p n i s).trace = s.trace ++ ssboEvs o env p n i s.nbuf := by
  rcases h : env.ssboIdx n with _ | idx <;> simp [setup_ssbo, ssboEvs, emit, h]

@[simp] lemma setup_ssbo_nbuf (o : Opts) (env : Env) (p : Nat) (n : String)
    (i : Bool) (s : St) :
    (setup_ssbo o env p n i s).nbuf = s.nbuf + optInc (env.ssboIdx n) := by
  rcases h : env.ssboIdx n with _ | idx <;> simp [setup_ssbo, optInc, emit, h]

@[simp] lemma setup_ssbo_ntex (o : Opts) (env : Env) (p : Nat) (n : String)
    (i : Bool) (s : St) : (setup_ssbo o env p n i s).ntex = s.ntex := by
  rcases h : env.ssboIdx n with _ | idx <;> simp [setup_ssbo, emit, h]

@[simp] lemma setup_ssbo_cnt (o : Opts) (env : Env) (p : Nat) (n : String)
    (i : Bool) (s : St) : (setup_ssbo o env p n i s).cnt = s.cnt := by
  rcases h : env.ssboIdx n with _ | idx <;> simp [setup_ssbo, emit, h]

lemma setup_ssbo_table (o : Opts) (env : Env) (p : Nat) (n : String)
    (i : Bool) (s : St) :
    (setup_ssbo o env p n i s).ssbo_table =
      match env.ssboIdx n with
      | none => s.ssbo_table
      | some idx => Function.update s.ssbo_table idx (env.bufHandle s.nbuf) := by
  rcases h : env.ssboIdx n with _ | idx <;> simp [setup_ssbo, emit, h]

@[simp] lemma setup_ubo_trace (o : Opts) (env : Env) (p : Nat) (n : String)
    (s : St) :
    (setup_ubo o env p n s).trace = s.trace ++ uboEvs o env p n s.cnt s.nbuf := by
  rcases h : env.uboIdx n with _ | idx <;> simp [setup_ubo, uboEvs, emit, h]

@[simp] lemma setup_ubo_nbuf (o : Opts) (env : Env) (p : Nat) (n : String)
    (s : St) : (setup_ubo o env p n s).nbuf = s.nbuf + optInc (env.uboIdx n) := by
  rcases h : env.uboIdx n with _ | idx <;> simp [setup_ubo, optInc, emit, h]

@[simp] lemma setup_ubo_ntex (o : Opts) (env : Env) (p : Nat) (n : String)
    (s : St) : (setup_ubo o env p n s).ntex = s.ntex := by
  rcases h : env.uboIdx n with _ | idx <;> simp [setup_ubo, emit, h]

@[simp] lemma setup_ubo_cnt (o : Opts) (env : Env) (p : Nat) (n : String)
    (s : St) : (setup_ubo o env p n s).cnt = s.cnt + 1 := by
  rcases h : env.uboIdx n with _ | idx <;> simp [setup_ubo, emit, h]

@[simp] lemma setup_ubo_table (o : Opts) (env : Env) (p : Nat) (n : String)
    (s : St) : (setup_ubo o env p n s).ssbo_table = s.ssbo_table := by
  rcases h : env.uboIdx n with _ | idx <;> simp [setup_ubo, emit, h]

@[simp] lemma setup_tex2d_trace (env : Env) (p : Nat) (n : String) (u : Nat)
    (img : Bool) (s : St) :
    (setup_tex2d env p n u img s).2.trace =
      s.trace ++ tex2dEvs env p n u img s.ntex := by
  rcases h : env.uniformLoc n with _ | l <;>
    cases img <;> simp [setup_tex2d, tex2dEvs, emit, h]

@[simp] lemma setup_tex2d_fst (env : Env) (p : Nat) (n : String) (u : Nat)
    (img : Bool) (s : St) :
    (setup_tex2d env p n u img s).1 = tex2dRet env n u := by
  rcases h : env.uniformLoc n with _ | l <;> simp [setup_tex2d, tex2dRet, emit, h]

@[simp] lemma setup_tex2d_ntex (env : Env) (p : Nat) (n : String) (u : Nat)
    (img : Bool) (s : St) :
    (setup_tex2d env p n u img s).2.ntex = s.ntex + optInc (env.uniformLoc n) := by
  rcases h : env.uniformLoc n with _ | l <;>
    cases img <;> simp [setup_tex2d, optInc, emit, h]

@[simp] lemma setup_tex2d_nbuf (env : Env) (p : Nat) (n : String) (u : Nat)
    (img : Bool) (s : St) : (setup_tex2d env p n u img s).2.nbuf = s.nbuf := by
  rcases h : env.uniformLoc n with _ | l <;>
    cases img <;> simp [setup_tex2d, emit, h]

@[simp] lemma setup_tex2d_cnt (env : Env) (p : Nat) (n : String) (u : Nat)
    (img : Bool) (s : St) : (setup_tex2d env p n u img s).2.cnt = s.cnt := by
  rcases h : env.uniformLoc n with _ | l <;>
    cases img <;> simp [setup_tex2d, emit, h]

@[simp] lemma setup_tex2d_table (env : Env) (p : Nat) (n : String) (u : Nat)
    (img : Bool) (s : St) :
    (setup_tex2d env p n u img s).2.ssbo_table = s.ssbo_table := by
  rcases h : env.uniformLoc n with _ | l <;>
    cases img <;> simp [setup_tex2d, emit, h]

@[simp] lemma dump_ssbo_trace (o : Opts) (env : Env) (p : Nat) (n : String)
    (s : St) :
    (dump_ssbo o env p n s).trace = s.trace ++ dumpEvs o env p n s.ssbo_table := by
  rcases h : env.ssboIdx n with _ | idx <;> simp [dump_ssbo, dumpEvs, emit, h]

@[simp] lemma dump_ssbo_table (o : Opts) (env : Env) (p : Nat) (n : String)
    (s : St) : (dump_ssbo o env p n s).ssbo_table = s.ssbo_table := by
  rcases h : env.ssboIdx n with _ | idx <;> simp [dump_ssbo, emit, h]

/-! ### Per-block facts about dispatch events -/

@[simp] lemma dispatches_nil : dispatches ([] : List Event) = [] := rfl

@[simp] lemma dispatches_cons (e : Event) (l : List Event) :
    dispatches (e :: l) =
      if isDispatch e = true then e :: dispatches l else dispatches l := by
  simp [dispatches, List.filter_cons]

@[simp] lemma dispatches_append (l1 l2 : List Event) :
    dispatches (l1 ++ l2) = dispatches l1 ++ dispatches l2 := by
  simp [dispatches]

@[simp] lemma dispatches_ssboEvs (o : Opts) (env : Env) (p : Nat) (n : String)
    (i : Bool) (k : Nat) : dispatches (ssboEvs o env p n i k) = [] := by
  rcases h : env.ssboIdx n with _ | idx <;>
    simp [ssboEvs, dispatches, isDispatch, h]

@[simp] lemma dispatches_uboEvs (o : Opts) (env : Env) (p : Nat) (n : String)
    (c k : Nat) : dispatches (uboEvs o env p n c k) = [] := by
  rcases h : env.uboIdx n with _ | idx <;>
    simp [uboEvs, dispatches, isDispatch, h]

@[simp] lemma dispatches_tex2dEvs (env : Env) (p : Nat) (n : String)
    (u : Nat) (img : Bool) (k : Nat) : dispatches (tex2dEvs env p n u img k) = [] := by
  rcases h : env.uniformLoc n with _ | l <;>
    cases img <;> simp [tex2dEvs, dispatches, isDispatch, h]

@[simp] lemma dispatches_dumpEvs (o : Opts) (env : Env) (p : Nat) (n : String)
    (tb : Nat → Nat) : dispatches (dumpEvs o env p n tb) = [] := by
  rcases h : env.ssboIdx n with _ | idx <;>
    simp [dumpEvs, dispatches, isDispatch, h]

/-! ### Per-block facts about spec steps -/

@[simp] lemma steps_nil : steps ([] : List Event) = [] := rfl

@[simp] lemma steps_cons (e : Event) (l : List Event) :
    steps (e :: l) =
      match stepOf e with
      | none => steps l
      | some k => k :: steps l := by
  cases h : stepOf e <;> simp [steps, List.filterMap_cons, h]

@[simp] lemma steps_append (l1 l2 : List Event) :
    steps (l1 ++ l2) = steps l1 ++ steps l2 := by
  simp [steps]

@[simp] lemma steps_ssboEvs (o : Opts) (env : Env) (p : Nat) (n : String)
    (i : Bool) (k : Nat) :
    steps (ssboEvs o env p n i k) =
      match env.ssboIdx n with
      | none => []
      | some _ => [3, 3, 3] := by
  rcases h : env.ssboIdx n with _ | idx <;> simp [ssboEvs, steps, stepOf, h]

@[simp] lemma steps_uboEvs (o : Opts) (env : Env) (p : Nat) (n : String)
    (c k : Nat) :
    steps (uboEvs o env p n c k) =
      match env.uboIdx n with
      | none => [3]
      | some _ => [3, 3, 3, 3, 3, 3] := by
  rcases h : env.uboIdx n with _ | idx <;> simp [uboEvs, steps, stepOf, h]

@[simp] lemma steps_tex2dEvs (env : Env) (p : Nat) (n : String) (u : Nat)
    (img : Bool) (k : Nat) :
    steps (tex2dEvs env p n u img k) =
      match env.uniformLoc n with
      | none => [3]
      | some _ => if img then [3, 3, 3, 3, 3, 3, 3, 3, 3, 3, 3]
                  else [3, 3, 3, 3, 3, 3, 3, 3, 3, 3, 3, 3] := by
  rcases h : env.uniformLoc n with _ | l <;>
    cases img <;> simp [tex2dEvs, steps, stepOf, h]

@[simp] lemma steps_dumpEvs (o : Opts) (env : Env) (p : Nat) (n : String)
    (tb : Nat → Nat) :
    steps (dumpEvs o env p n tb) =
      match env.ssboIdx n with
      | none => []
      | some _ => [5, 5, 5] := by
  rcases h : env.ssboIdx n with _ | idx <;> simp [dumpEvs, steps, stepOf, h]

/-! ### Per-block facts about selected texture units -/

@[simp] lemma activeUnits_nil : activeUnits ([] : List Event) = [] := rfl

@[simp] lemma activeUnits_cons (e : Event) (l : List Event) :
    activeUnits (e :: l) =
      match e with
      | .glActiveTexture u => (u - GL_TEXTURE0) :: activeUnits l
      | _ => activeUnits l := by
  cases e <;> rfl

@[simp] lemma activeUnits_append (l1 l2 : List Event) :
    activeUnits (l1 ++ l2) = activeUnits l1 ++ activeUnits l2 := by
  simp [activeUnits]

@[simp] lemma activeUnits_ssboEvs (o : Opts) (env : Env) (p : Nat) (n : String)
    (i : Bool) (k : Nat) : activeUnits (ssboEvs o env p n i k) = [] := by
  rcases h : env.ssboIdx n with _ | idx <;> simp [ssboEvs, activeUnits, h]

@[simp] lemma activeUnits_uboEvs (o : Opts) (env : Env) (p : Nat) (n : String)
    (c k : Nat) : activeUnits (uboEvs o env p n c k) = [] := by
  rcases h : env.uboIdx n with _ | idx <;> simp [uboEvs, activeUnits, h]

@[simp] lemma activeUnits_tex2dEvs (env : Env) (p : Nat) (n : String) (u : Nat)
    (img : Bool) (k : Nat) :
    activeUnits (tex2dEvs env p n u img k) =
      match env.uniformLoc n with
      | none => []
      | some _ => [u] := by
  rcases h : env.uniformLoc n with _ | l <;>
    cases img <;> simp [tex2dEvs, activeUnits, h, Nat.add_sub_cancel_left]

@[simp] lemma activeUnits_dumpEvs (o : Opts) (env : Env) (p : Nat) (n : String)
    (tb : Nat → Nat) : activeUnits (dumpEvs o env p n tb) = [] := by
  rcases h : env.ssboIdx n with _ | idx <;> simp [dumpEvs, activeUnits, h]

/-! ### Claim theorems -/

/-- C8: for every non-negative dword count n, `mem n true` is the buffer
whose i-th dword is i for every i < n (that is, the sequence 0,...,n-1),
and `mem n false` is the buffer of n zero dwords. -/
theorem c8_mem_contents (n : Nat) :
    mem n true = List.range n ∧ mem n false = List.replicate n 0 :=
  ⟨mem_true_eq_range n, mem_false_eq_replicate n⟩

/-- C2: in every execution of `run`, the compute dispatch call is issued
exactly once when shader compilation succeeds and zero times otherwise; in
particular never more than once. -/
theorem c2_dispatch_exactly_once (o : Opts) (env : Env) :
    (dispatches (run o env).trace).length = if env.compileOk then 1 else 0 := by
  cases hC : env.compileOk with
  | false =>
    by_cases hL : 1 < env.infoLogLen <;>
      simp [run, St.init, isDispatch, hC, hL]
  | true =>
    simp [run, St.init, isDispatch, hC]

set_option maxHeartbeats 3200000 in
/-- C1: in every successful execution (compilation succeeded; the shader
declares the Input and Output storage blocks, so that every step has work
to do), the steps — 0 open device, 1 create windowless context, 2 compile
and link, 3 bind buffers/textures, 4 dispatch, 5 retrieve results — all
occur, and the step sequence of the trace is monotone: no event of a later
step precedes an event of an earlier step. -/
theorem c1_steps_in_order (o : Opts) (env : Env) (iIn iOut : Nat)
    (hC : env.compileOk = true)
    (hI : env.ssboIdx "Input" = some iIn)
    (hO : env.ssboIdx "Output" = some iOut) :
    List.Pairwise (· ≤ ·) (steps (run o env).trace) ∧
    0 ∈ steps (run o env).trace ∧
    1 ∈ steps (run o env).trace ∧
    2 ∈ steps (run o env).trace ∧
    3 ∈ steps (run o env).trace ∧
    4 ∈ steps (run o env).trace ∧
    5 ∈ steps (run o env).trace := by
  rcases hU : env.uboIdx "Input" with _ | iU <;>
  rcases h1 : env.uniformLoc "tex2d0" with _ | l1 <;>
  rcases h2 : env.uniformLoc "img2d0in" with _ | l2 <;>
  rcases h3 : env.uniformLoc "img2d0out" with _ | l3 <;>
    simp [run, St.init, stepOf, hC, hI, hO, hU, h1, h2, h3]

/-- C1 witness: the ordering theorem applied to the concrete environment
`envA` (all resources present). -/
theorem c1_steps_in_order_witness :
    List.Pairwise (· ≤ ·) (steps (run optsA envA).trace) ∧
    0 ∈ steps (run optsA envA).trace ∧
    1 ∈ steps (run optsA envA).trace ∧
    2 ∈ steps (run optsA envA).trace ∧
    3 ∈ steps (run optsA envA).trace ∧
    4 ∈ steps (run optsA envA).trace ∧
    5 ∈ steps (run optsA envA).trace :=
  c1_steps_in_order optsA envA 0 1 rfl rfl rfl

/-- C3: if compilation of the compute shader fails, the program prints the
compiler info log exactly when its reported length exceeds 1, and returns
from `run` having emitted no link call, no buffer or texture creation,
upload or binding call, and no dispatch; main still returns exit status 0. -/
theorem c3_compile_failure_clean_exit (o : Opts) (env : Env)
    (hC : env.compileOk = false) :
    ((Event.printInfoLog env.infoLog ∈ (run o env).trace) ↔ 1 < env.infoLogLen) ∧
    (run o env).trace.countP isLink = 0 ∧
    (run o env).trace.countP isBindEvent = 0 ∧
    dispatches (run o env).trace = [] ∧
    (main_ret o env true).1 = 0 := by
  by_cases hL : 1 < env.infoLogLen <;>
    simp [run, St.init, main_ret, isLink, isBindEvent, isDispatch,
      List.countP_cons, hC, hL]

/-- C3 witness: the compile-failure theorem applied to the concrete failing
environment `envFail` (info log of length 2). -/
theorem c3_compile_failure_clean_exit_witness :
    ((Event.printInfoLog envFail.infoLog ∈ (run optsA envFail).trace) ↔
      1 < envFail.infoLogLen) ∧
    (run optsA envFail).trace.countP isLink = 0 ∧
    (run optsA envFail).trace.countP isBindEvent = 0 ∧
    dispatches (run optsA envFail).trace = [] ∧
    (main_ret optsA envFail true).1 = 0 :=
  c3_compile_failure_clean_exit optsA envFail rfl

/-- C9 (refuting the claimed bound): when `read` fills the entire 64 KiB
static buffer — i.e. returns `sizeof(text)` — the NUL terminator is stored
at index 65536, which is not strictly less than the buffer size: the store
is one byte past the end of the buffer. -/
theorem c9_nul_store_out_of_bounds :
    readfile_nul_index (READFILE_BUFSIZE : Nat) = some READFILE_BUFSIZE ∧
    ¬ ((READFILE_BUFSIZE : Nat) < READFILE_BUFSIZE) := by
  constructor
  · simp [readfile_nul_index, READFILE_BUFSIZE]
  · simp

/-- C10: `setup_tex2d` returns `unit + 1` exactly when the queried uniform
exists and `unit` unchanged otherwise, and in `run` the texture units
selected for the existing texture/image uniforms are pairwise distinct. -/
theorem c10_distinct_texture_units (o : Opts) (env : Env) :
    (∀ (p : Nat) (n : String) (u : Nat) (img : Bool) (s : St),
      (setup_tex2d env p n u img s).1 =
        if (env.uniformLoc n).isSome then u + 1 else u) ∧
    (activeUnits (run o env).trace).Nodup := by
  constructor
  · intro p n u img s
    rcases h : env.uniformLoc n with _ | l <;> simp [tex2dRet, h]
  · cases hC : env.compileOk with
    | false =>
      by_cases hL : 1 < env.infoLogLen <;>
        simp [run, St.init, hC, hL]
    | true =>
      rcases h1 : env.uniformLoc "tex2d0" with _ | l1 <;>
      rcases h2 : env.uniformLoc "img2d0in" with _ | l2 <;>
      rcases h3 : env.uniformLoc "img2d0out" with _ | l3 <;>
        simp [run, St.init, tex2dRet, hC, h1, h2, h3]

/-- C6: the reduced copy of the example (modelled from the spec as the same
sequence without the texture/buffer helpers and the dump) exhibits the same
dispatch behaviour as the full copy: in every environment both issue exactly
the same compute dispatch calls with the same group counts. -/
theorem c6_reduced_copy_same_dispatch (o : Opts) (env : Env) :
    dispatches (run_reduced o env).trace = dispatches (run o env).trace := by
  cases hC : env.compileOk with
  | false =>
    by_cases hL : 1 < env.infoLogLen <;>
      simp [run, run_reduced, St.init, isDispatch, hC, hL]
  | true =>
    simp [run, run_reduced, St.init, isDispatch, hC]

/-- C5 counterexample: `setup_ubo` called twice with identical arguments
behaves differently on the second call — its static counter survives the
first call, so the second call binds the UBO to binding point 1 instead
of 0.  The helper's behaviour therefore is not independent of how many
times it was previously called. -/
theorem c5_persistent_counter_counterexample :
    emitted (setup_ubo optsA envA 5 "Input")
        (setup_ubo optsA envA 5 "Input" St.init) ≠
      emitted (setup_ubo optsA envA 5 "Input") St.init := by
  intro h
  have h2 := congrArg uniformBindPoints h
  simp [uniformBindPoints, emitted, uboEvs, envA, optsA, St.init,
    List.drop_left] at h2

/-- C5 as amended: the helpers keep no persistent program state of their
own beyond `setup_ubo`'s static call counter and the `ssbo_table`: each
helper's emitted calls (and `setup_tex2d`'s return value) are a function of
its explicit arguments, the driver's name counters (`nbuf`, `ntex`), plus —
only for `setup_ubo` — the static counter `cnt`, and — only for
`dump_ssbo` — the saved `ssbo_table`.  In particular no helper depends on
the prior call history in any other way. -/
theorem c5_amended_state_dependence (o : Opts) (env : Env) (p : Nat)
    (n : String) (i : Bool) (u : Nat) (img : Bool) (s : St) :
    emitted (setup_ssbo o env p n i) s = ssboEvs o env p n i s.nbuf ∧
    (setup_tex2d env p n u img s).2.trace.drop s.trace.length =
      tex2dEvs env p n u img s.ntex ∧
    (setup_tex2d env p n u img s).1 = tex2dRet env n u ∧
    emitted (setup_ubo o env p n) s = uboEvs o env p n s.cnt s.nbuf ∧
    emitted (dump_ssbo o env p n) s = dumpEvs o env p n s.ssbo_table := by
  refine ⟨?_, ?_, ?_, ?_, ?_⟩ <;> simp [emitted, List.drop_left]

set_option maxHeartbeats 3200000 in
/-- C4: every handle obtained from the external APIs is passed back
verbatim: all file descriptors appearing in the trace equal the fd `open`
returned, likewise the GBM device, EGL display, EGL context, shader and
program handles; the SSBO-target `glBindBufferBase` calls are exactly the
two setup binds (at the blocks' resource indices, with the driver's first
two generated buffer names) followed by the dump bind, which re-uses
exactly the handle that `setup_ssbo` stored in `ssbo_table` at the
"Output" resource index. -/
theorem c4_handles_passed_through (o : Opts) (env : Env) (iIn iOut : Nat)
    (hC : env.compileOk = true)
    (hI : env.ssboIdx "Input" = some iIn)
    (hO : env.ssboIdx "Output" = some iOut)
    (hIb : iIn < 256) (hOb : iOut < 256) :
    (∀ x ∈ (run o env).trace.filterMap fdOf, x = env.fd) ∧
    (∀ x ∈ (run o env).trace.filterMap gbmOf, x = env.gbmDev) ∧
    (∀ x ∈ (run o env).trace.filterMap dpyOf, x = env.dpy) ∧
    (∀ x ∈ (run o env).trace.filterMap ctxOf, x = env.ctx) ∧
    (∀ x ∈ (run o env).trace.filterMap shaderOf, x = env.shaderHandle) ∧
    (∀ x ∈ (run o env).trace.filterMap programOf, x = env.programHandle) ∧
    ssboBinds (run o env).trace =
      [(iIn, env.bufHandle 0), (iOut, env.bufHandle 1), (0, env.bufHandle 1)] ∧
    (run o env).ssbo_table iOut = env.bufHandle 1 := by
  rcases hU : env.uboIdx "Input" with _ | iU <;>
  rcases h1 : env.uniformLoc "tex2d0" with _ | l1 <;>
  rcases h2 : env.uniformLoc "img2d0in" with _ | l2 <;>
  rcases h3 : env.uniformLoc "img2d0out" with _ | l3 <;>
    simp [run, St.init, setup_ssbo_table, ssboEvs, uboEvs, tex2dEvs, dumpEvs,
      tex2dRet, optInc, ssboBinds, fdOf, gbmOf, dpyOf, ctxOf, shaderOf,
      programOf, hC, hI, hO, hU, h1, h2, h3]

/-- C4 witness: the pass-through theorem applied to the concrete
environment `envA` ("Input" at resource index 0, "Output" at 1). -/
theorem c4_handles_passed_through_witness :
    (∀ x ∈ (run optsA envA).trace.filterMap fdOf, x = envA.fd) ∧
    (∀ x ∈ (run optsA envA).trace.filterMap gbmOf, x = envA.gbmDev) ∧
    (∀ x ∈ (run optsA envA).trace.filterMap dpyOf, x = envA.dpy) ∧
    (∀ x ∈ (run optsA envA).trace.filterMap ctxOf, x = envA.ctx) ∧
    (∀ x ∈ (run optsA envA).trace.filterMap shaderOf, x = envA.shaderHandle) ∧
    (∀ x ∈ (run optsA envA).trace.filterMap programOf, x = envA.programHandle) ∧
    ssboBinds (run optsA envA).trace =
      [(0, envA.bufHandle 0), (1, envA.bufHandle 1), (0, envA.bufHandle 1)] ∧
    (run optsA envA).ssbo_table 1 = envA.bufHandle 1 :=
  c4_handles_passed_through optsA envA 0 1 rfl rfl rfl (by decide) (by decide)

set_option maxHeartbeats 3200000 in
/-- C7: the UBO is loaded with the initialised sequence 0,...,bo_size-1 and
is never mapped back by the host; the SSBO uploads are exactly the
initialised sequence (for "Input") followed by the zero-filled buffer (for
"Output"); no SSBO mapping happens before the dispatch, and after the
dispatch exactly one SSBO mapping occurs and its contents are read
(hexdumped) by the host. -/
theorem c7_ubo_readonly_ssbo_readwrite (o : Opts) (env : Env)
    (iIn iOut iU : Nat)
    (hC : env.compileOk = true)
    (hI : env.ssboIdx "Input" = some iIn)
    (hO : env.ssboIdx "Output" = some iOut)
    (hU : env.uboIdx "Input" = some iU) :
    uboUploads (run o env).trace = [List.range o.bo_size] ∧
    mapsOn .uniform (run o env).trace = [] ∧
    ssboUploads (run o env).trace =
      [List.range o.bo_size, List.replicate o.bo_size 0] ∧
    mapsOn .ssbo (beforeDispatch (run o env).trace) = [] ∧
    mapsOn .ssbo (fromDispatch (run o env).trace) = [o.bo_size * 4] ∧
    hexdumps (fromDispatch (run o env).trace) = [env.mapData.take o.bo_size] := by
  rcases h1 : env.uniformLoc "tex2d0" with _ | l1 <;>
  rcases h2 : env.uniformLoc "img2d0in" with _ | l2 <;>
  rcases h3 : env.uniformLoc "img2d0out" with _ | l3 <;>
    simp [run, St.init, setup_ssbo_table, ssboEvs, uboEvs, tex2dEvs, dumpEvs,
      tex2dRet, optInc, uboUploads, ssboUploads, mapsOn, hexdumps,
      beforeDispatch, fromDispatch, isDispatch, List.takeWhile_cons,
      List.dropWhile_cons, mem_true_eq_range, mem_false_eq_replicate,
      hC, hI, hO, hU, h1, h2, h3]

/-- C7 witness: the data-flow theorem applied to the concrete environment
`envA`. -/
theorem c7_ubo_readonly_ssbo_readwrite_witness :
    uboUploads (run optsA envA).trace = [List.range optsA.bo_size] ∧
    mapsOn .uniform (run optsA envA).trace = [] ∧
    ssboUploads (run optsA envA).trace =
      [List.range optsA.bo_size, List.replicate optsA.bo_size 0] ∧
    mapsOn .ssbo (beforeDispatch (run optsA envA).trace) = [] ∧
    mapsOn .ssbo (fromDispatch (run optsA envA).trace) = [optsA.bo_size * 4] ∧
    hexdumps (fromDispatch (run optsA envA).trace) =
      [envA.mapData.take optsA.bo_size] :=
  c7_ubo_readonly_ssbo_readwrite optsA envA 0 1 0 rfl rfl rfl rfl

end RenderNodes
